import Mathlib

/-!
Shallow embedding of the core of `mcp-go-search` (a Go MCP server exposing the
Bocha web-search API as a tool), covering:

* `search/service.go` — the `BochaService.Search` pipeline: rate-limiter
  acquisition, query/freshness validation, query truncation, count clamping,
  request construction, and response classification (provider error, decode
  error, empty response, success);
* `mcp/tools.go` — the tool handler: untyped argument extraction with
  defaults and bounds, the result renderer, `formatFreshness`, `formatDate`,
  and `sanitizeErrorMessage`.

Go strings are modelled as `List Char` (`Str`).  JSON response bodies are
modelled as a JSON value AST (`Json`), and `encoding/json.Unmarshal` into the
Go structs of `service.go` is embedded field by field (absent field leaves the
zero value, `null` leaves the value unchanged except for slices which become
nil, type mismatch is a decode error, unknown fields are ignored, keys match
struct tags ASCII-case-insensitively, later duplicate keys win).  The machine
`int` is modelled as `Int`; JSON numbers are modelled at integer precision.
-/

set_option maxRecDepth 4096

/-- Go strings, modelled as lists of characters. -/
abbrev Str := List Char

/-- Converts a Lean string literal to the `Str` model. -/
def str (s : String) : Str := s.toList

/-- Decimal rendering of a natural number (Go `%d` on a non-negative int). -/
def natToStr (n : Nat) : Str := (Nat.repr n).toList

/-- Decimal rendering of an integer (Go `%d`). -/
def intToStr (n : Int) : Str := (toString n).toList

/-- First index at which `pat` occurs as a contiguous substring of `s`
(Go `strings.Index`, as an `Option`). -/
def indexOfSub (pat : Str) : Str → Option Nat
  | [] => if pat.isPrefixOf [] then some 0 else none
  | c :: rest =>
    if pat.isPrefixOf (c :: rest) then some 0
    else (indexOfSub pat rest).map (· + 1)

/-- Go `strings.Contains`. -/
def containsSub (s pat : Str) : Bool := (indexOfSub pat s).isSome

/-- Go `strings.IndexAny`: first index in `s` of any character of `chars`. -/
def indexAnyIn (s chars : Str) : Option Nat :=
  match s with
  | [] => none
  | c :: rest =>
    if chars.contains c then some 0
    else (indexAnyIn rest chars).map (· + 1)

/-- Fuel-driven worker for `splitOnStr`; the fuel is an upper bound on the
number of characters still to be scanned, so it never runs out when
initialised with the length of the input. -/
def splitOnAux (sep : Str) : Nat → Str → Str → List Str
  | 0, s, acc => [acc.reverse ++ s]
  | _ + 1, [], acc => [acc.reverse]
  | fuel + 1, c :: rest, acc =>
    if sep.isPrefixOf (c :: rest) then
      acc.reverse :: splitOnAux sep fuel ((c :: rest).drop sep.length) []
    else
      splitOnAux sep fuel rest (c :: acc)

/-- Go `strings.Split`: split around every non-overlapping occurrence of
`sep`, scanning left to right (for a non-empty separator, which is the only
way the source uses it). -/
def splitOnStr (sep s : Str) : List Str :=
  if sep = [] then [s] else splitOnAux sep s.length s []

/-- Go `strings.Join`. -/
def joinStr (sep : Str) : List Str → Str
  | [] => []
  | [x] => x
  | x :: xs => x ++ sep ++ joinStr sep xs

/-- Length of the run of characters at the front of `l` that are not in the
boundary set `stop` (used to find the end of a URL span). -/
def runLenNotIn (stop : Str) : Str → Nat
  | [] => 0
  | c :: rest => if stop.contains c then 0 else 1 + runLenNotIn stop rest

/-! ## JSON values and `encoding/json.Unmarshal` into the response structs -/

/-- A decoded JSON value: the model of a syntactically valid provider
response body. -/
inductive Json where
  | null
  | bool (b : Bool)
  | num (n : Int)
  | str (s : Str)
  | arr (elems : List Json)
  | obj (fields : List (Str × Json))


/-- ASCII-case-insensitive equality, the effective key matching rule of
`encoding/json` for the all-ASCII struct tags of this repository. -/
def eqFoldAscii (a b : Str) : Bool := a.map Char.toLower == b.map Char.toLower

/-- Unmarshal a JSON value into a Go `string` field whose current value is
`cur`: a JSON string overwrites, `null` leaves the field unchanged, anything
else is a type error. -/
def decStr (v : Json) (cur : Str) : Option Str :=
  match v with
  | .str s => some s
  | .null => some cur
  | _ => none

/-- Unmarshal a JSON value into a Go `int` field. -/
def decInt (v : Json) (cur : Int) : Option Int :=
  match v with
  | .num n => some n
  | .null => some cur
  | _ => none

/-- Unmarshal a JSON value into a Go `bool` field. -/
def decBool (v : Json) (cur : Bool) : Option Bool :=
  match v with
  | .bool b => some b
  | .null => some cur
  | _ => none

/-- `WebPageResult` of `search/service.go`: one web page result. The four
`any`-typed fields hold arbitrary JSON. -/
structure WebPageResult where
  id : Str
  name : Str
  url : Str
  displayUrl : Str
  snippet : Str
  siteName : Str
  siteIcon : Str
  dateLastCrawled : Str
  cachedPageUrl : Json
  language : Json
  isFamilyFriendly : Json
  isNavigational : Json


/-- Go zero value of `WebPageResult`. -/
def WebPageResult.zero : WebPageResult :=
  { id := [], name := [], url := [], displayUrl := [], snippet := []
    siteName := [], siteIcon := [], dateLastCrawled := []
    cachedPageUrl := .null, language := .null
    isFamilyFriendly := .null, isNavigational := .null }

/-- `WebPages` of `search/service.go`.  `value` models the Go slice
`Value []WebPageResult`: `none` is a nil slice, `some l` a non-nil slice. -/
structure WebPages where
  webSearchUrl : Str
  totalEstimatedMatches : Int
  value : Option (List WebPageResult)
  someResultsRemoved : Bool


/-- Go zero value of `WebPages` (the slice is nil). -/
def WebPages.zero : WebPages :=
  { webSearchUrl := [], totalEstimatedMatches := 0
    value := none, someResultsRemoved := false }

/-- `ImageResult` of `search/service.go`. -/
structure ImageResult where
  webSearchUrl : Json
  name : Json
  thumbnailUrl : Str
  datePublished : Json
  contentUrl : Str
  hostPageUrl : Str
  contentSize : Json
  encodingFormat : Json
  hostPageDisplayUrl : Str
  width : Int
  height : Int
  thumbnail : Json


/-- Go zero value of `ImageResult`. -/
def ImageResult.zero : ImageResult :=
  { webSearchUrl := .null, name := .null, thumbnailUrl := []
    datePublished := .null, contentUrl := [], hostPageUrl := []
    contentSize := .null, encodingFormat := .null, hostPageDisplayUrl := []
    width := 0, height := 0, thumbnail := .null }

/-- `Images` of `search/service.go`. -/
structure Images where
  id : Json
  readLink : Json
  webSearchUrl : Json
  value : Option (List ImageResult)
  isFamilyFriendly : Json


/-- Go zero value of `Images`. -/
def Images.zero : Images :=
  { id := .null, readLink := .null, webSearchUrl := .null
    value := none, isFamilyFriendly := .null }

/-- `QueryContext` of `search/service.go`. -/
structure QueryContext where
  originalQuery : Str


/-- `Data` of `search/service.go`: the `data` section of the response. -/
structure Data where
  type : Str
  queryContext : QueryContext
  webPages : WebPages
  images : Images
  videos : Json


/-- Go zero value of `Data`. -/
def Data.zero : Data :=
  { type := [], queryContext := { originalQuery := [] }
    webPages := WebPages.zero, images := Images.zero, videos := .null }

/-- `WebSearchResponse` of `search/service.go`: the top-level response. -/
structure WebSearchResponse where
  code : Int
  logId : Str
  msg : Json
  data : Data


/-- Go zero value of `WebSearchResponse`. -/
def WebSearchResponse.zero : WebSearchResponse :=
  { code := 0, logId := [], msg := .null, data := Data.zero }

/-- Unmarshal into `QueryContext`. -/
def decodeQueryContext (v : Json) (cur : QueryContext) : Option QueryContext :=
  match v with
  | .null => some cur
  | .obj fields =>
    fields.foldlM (fun acc kv =>
      if eqFoldAscii kv.1 (str "originalQuery") then
        (decStr kv.2 acc.originalQuery).map (fun x => { acc with originalQuery := x })
      else some acc) cur
  | _ => none

/-- Unmarshal into one `WebPageResult`. -/
def decodeWebPageResult (v : Json) (cur : WebPageResult) : Option WebPageResult :=
  match v with
  | .null => some cur
  | .obj fields =>
    fields.foldlM (fun acc kv =>
      if eqFoldAscii kv.1 (str "id") then
        (decStr kv.2 acc.id).map (fun x => { acc with id := x })
      else if eqFoldAscii kv.1 (str "name") then
        (decStr kv.2 acc.name).map (fun x => { acc with name := x })
      else if eqFoldAscii kv.1 (str "url") then
        (decStr kv.2 acc.url).map (fun x => { acc with url := x })
      else if eqFoldAscii kv.1 (str "displayUrl") then
        (decStr kv.2 acc.displayUrl).map (fun x => { acc with displayUrl := x })
      else if eqFoldAscii kv.1 (str "snippet") then
        (decStr kv.2 acc.snippet).map (fun x => { acc with snippet := x })
      else if eqFoldAscii kv.1 (str "siteName") then
        (decStr kv.2 acc.siteName).map (fun x => { acc with siteName := x })
      else if eqFoldAscii kv.1 (str "siteIcon") then
        (decStr kv.2 acc.siteIcon).map (fun x => { acc with siteIcon := x })
      else if eqFoldAscii kv.1 (str "dateLastCrawled") then
        (decStr kv.2 acc.dateLastCrawled).map (fun x => { acc with dateLastCrawled := x })
      else if eqFoldAscii kv.1 (str "cachedPageUrl") then
        some { acc with cachedPageUrl := kv.2 }
      else if eqFoldAscii kv.1 (str "language") then
        some { acc with language := kv.2 }
      else if eqFoldAscii kv.1 (str "isFamilyFriendly") then
        some { acc with isFamilyFriendly := kv.2 }
      else if eqFoldAscii kv.1 (str "isNavigational") then
        some { acc with isNavigational := kv.2 }
      else some acc) cur
  | _ => none

/-- Unmarshal into the slice `Value []WebPageResult`: `null` sets the slice
to nil, an array builds a fresh (possibly empty, but non-nil) slice whose
elements are decoded from the zero value. -/
def decodeWebPageList (v : Json) : Option (Option (List WebPageResult)) :=
  match v with
  | .null => some none
  | .arr xs => (xs.mapM (fun x => decodeWebPageResult x WebPageResult.zero)).map some
  | _ => none

/-- Unmarshal into `WebPages`. -/
def decodeWebPages (v : Json) (cur : WebPages) : Option WebPages :=
  match v with
  | .null => some cur
  | .obj fields =>
    fields.foldlM (fun acc kv =>
      if eqFoldAscii kv.1 (str "webSearchUrl") then
        (decStr kv.2 acc.webSearchUrl).map (fun x => { acc with webSearchUrl := x })
      else if eqFoldAscii kv.1 (str "totalEstimatedMatches") then
        (decInt kv.2 acc.totalEstimatedMatches).map (fun x => { acc with totalEstimatedMatches := x })
      else if eqFoldAscii kv.1 (str "value") then
        (decodeWebPageList kv.2).map (fun x => { acc with value := x })
      else if eqFoldAscii kv.1 (str "someResultsRemoved") then
        (decBool kv.2 acc.someResultsRemoved).map (fun x => { acc with someResultsRemoved := x })
      else some acc) cur
  | _ => none

/-- Unmarshal into one `ImageResult`. -/
def decodeImageResult (v : Json) (cur : ImageResult) : Option ImageResult :=
  match v with
  | .null => some cur
  | .obj fields =>
    fields.foldlM (fun acc kv =>
      if eqFoldAscii kv.1 (str "webSearchUrl") then
        some { acc with webSearchUrl := kv.2 }
      else if eqFoldAscii kv.1 (str "name") then
        some { acc with name := kv.2 }
      else if eqFoldAscii kv.1 (str "thumbnailUrl") then
        (decStr kv.2 acc.thumbnailUrl).map (fun x => { acc with thumbnailUrl := x })
      else if eqFoldAscii kv.1 (str "datePublished") then
        some { acc with datePublished := kv.2 }
      else if eqFoldAscii kv.1 (str "contentUrl") then
        (decStr kv.2 acc.contentUrl).map (fun x => { acc with contentUrl := x })
      else if eqFoldAscii kv.1 (str "hostPageUrl") then
        (decStr kv.2 acc.hostPageUrl).map (fun x => { acc with hostPageUrl := x })
      else if eqFoldAscii kv.1 (str "contentSize") then
        some { acc with contentSize := kv.2 }
      else if eqFoldAscii kv.1 (str "encodingFormat") then
        some { acc with encodingFormat := kv.2 }
      else if eqFoldAscii kv.1 (str "hostPageDisplayUrl") then
        (decStr kv.2 acc.hostPageDisplayUrl).map (fun x => { acc with hostPageDisplayUrl := x })
      else if eqFoldAscii kv.1 (str "width") then
        (decInt kv.2 acc.width).map (fun x => { acc with width := x })
      else if eqFoldAscii kv.1 (str "height") then
        (decInt kv.2 acc.height).map (fun x => { acc with height := x })
      else if eqFoldAscii kv.1 (str "thumbnail") then
        some { acc with thumbnail := kv.2 }
      else some acc) cur
  | _ => none

/-- Unmarshal into the slice `Value []ImageResult`. -/
def decodeImageList (v : Json) : Option (Option (List ImageResult)) :=
  match v with
  | .null => some none
  | .arr xs => (xs.mapM (fun x => decodeImageResult x ImageResult.zero)).map some
  | _ => none

/-- Unmarshal into `Images`. -/
def decodeImages (v : Json) (cur : Images) : Option Images :=
  match v with
  | .null => some cur
  | .obj fields =>
    fields.foldlM (fun acc kv =>
      if eqFoldAscii kv.1 (str "id") then
        some { acc with id := kv.2 }
      else if eqFoldAscii kv.1 (str "readLink") then
        some { acc with readLink := kv.2 }
      else if eqFoldAscii kv.1 (str "webSearchUrl") then
        some { acc with webSearchUrl := kv.2 }
      else if eqFoldAscii kv.1 (str "value") then
        (decodeImageList kv.2).map (fun x => { acc with value := x })
      else if eqFoldAscii kv.1 (str "isFamilyFriendly") then
        some { acc with isFamilyFriendly := kv.2 }
      else some acc) cur
  | _ => none

/-- Unmarshal into `Data`. -/
def decodeData (v : Json) (cur : Data) : Option Data :=
  match v with
  | .null => some cur
  | .obj fields =>
    fields.foldlM (fun acc kv =>
      if eqFoldAscii kv.1 (str "_type") then
        (decStr kv.2 acc.type).map (fun x => { acc with type := x })
      else if eqFoldAscii kv.1 (str "queryContext") then
        (decodeQueryContext kv.2 acc.queryContext).map (fun x => { acc with queryContext := x })
      else if eqFoldAscii kv.1 (str "webPages") then
        (decodeWebPages kv.2 acc.webPages).map (fun x => { acc with webPages := x })
      else if eqFoldAscii kv.1 (str "images") then
        (decodeImages kv.2 acc.images).map (fun x => { acc with images := x })
      else if eqFoldAscii kv.1 (str "videos") then
        some { acc with videos := kv.2 }
      else some acc) cur
  | _ => none

/-- `json.Unmarshal(body, &searchResp)` of `service.go`: decode the body
into a `WebSearchResponse` starting from the zero value; `none` is the Go
decode error. -/
def unmarshalWebSearchResponse (body : Json) : Option WebSearchResponse :=
  match body with
  | .null => some WebSearchResponse.zero
  | .obj fields =>
    fields.foldlM (fun acc kv =>
      if eqFoldAscii kv.1 (str "code") then
        (decInt kv.2 acc.code).map (fun x => { acc with code := x })
      else if eqFoldAscii kv.1 (str "log_id") then
        (decStr kv.2 acc.logId).map (fun x => { acc with logId := x })
      else if eqFoldAscii kv.1 (str "msg") then
        some { acc with msg := kv.2 }
      else if eqFoldAscii kv.1 (str "data") then
        (decodeData kv.2 acc.data).map (fun x => { acc with data := x })
      else some acc) WebSearchResponse.zero
  | _ => none

/-- `json.Unmarshal(body, &errorResp)` of `service.go` for the anonymous
`struct { Error string }`: returns the decoded `Error` field (the zero value
`""` when the field is absent), or `none` on a decode error. -/
def unmarshalErrorResp (body : Json) : Option Str :=
  match body with
  | .null => some []
  | .obj fields =>
    fields.foldlM (fun acc kv =>
      if eqFoldAscii kv.1 (str "error") then decStr kv.2 acc
      else some acc) []
  | _ => none

/-! ## The Search Client (`search/service.go`) -/

/-- `WebSearchRequest` of `search/service.go`: the JSON body POSTed to the
provider. -/
structure WebSearchRequest where
  query : Str
  freshness : Str
  count : Int
  summary : Bool

/-- The typed failure values produced by `BochaService.Search`, one
constructor per `fmt.Errorf` site of `service.go` that the pipeline can
reach.  `message` below renders each to the exact Go error string. -/
inductive SearchError where
  /-- `rate limit exceeded: %w` — the context ended while waiting for a
  rate-limiter token; `inner` is the context error text. -/
  | rateLimited (inner : Str)
  /-- `search query cannot be empty` (the spec's InvalidArgument). -/
  | emptyQuery
  /-- `invalid freshness value: %q, ...` (the spec's InvalidArgument). -/
  | invalidFreshness (f : Str)
  /-- `failed to send request to Bocha API: %w`. -/
  | sendFailed (inner : Str)
  /-- `failed to read Bocha API response body: %w`. -/
  | readFailed (inner : Str)
  /-- `bocha api error (status %d): %s` when a provider error message was
  decoded from the body, else `bocha api returned status code %d` (the
  spec's ProviderError, carrying the status and optionally the message —
  never the raw body). -/
  | providerError (status : Nat) (msg : Option Str)
  /-- `failed to parse bocha api response: %w` (the wrapped JSON error text
  is elided by the model). -/
  | decodeError
  /-- `bocha api returned empty or invalid response` (the spec's
  EmptyResponse). -/
  | emptyResponse

/-- The Go `error` string of each `SearchError`, as built by the
`fmt.Errorf` calls in `service.go` (`%q` is modelled as plain quoting). -/
def SearchError.message : SearchError → Str
  | .rateLimited inner => str "rate limit exceeded: " ++ inner
  | .emptyQuery => str "search query cannot be empty"
  | .invalidFreshness f =>
    str "invalid freshness value: \"" ++ f ++
      str "\", must be one of: noLimit, day, week, month, oneYear"
  | .sendFailed inner => str "failed to send request to Bocha API: " ++ inner
  | .readFailed inner => str "failed to read Bocha API response body: " ++ inner
  | .providerError status (some m) =>
    str "bocha api error (status " ++ natToStr status ++ str "): " ++ m
  | .providerError status none =>
    str "bocha api returned status code " ++ natToStr status
  | .decodeError => str "failed to parse bocha api response"
  | .emptyResponse => str "bocha api returned empty or invalid response"

/-- `sanitizeQuery` of `service.go`: truncate the query to at most 1000
characters; never rejects. -/
def sanitizeQuery (query : Str) : Str :=
  if query.length > 1000 then query.take 1000 else query

/-- The count clamp of `service.go` lines 161-165 (the same logic appears at
`tools.go` lines 436-442): force the count into `[1,50]`. -/
def clampCount (count : Int) : Int :=
  if count < 1 then 1 else if count > 50 then 50 else count

/-- The freshness rejection test of `service.go` line 157:
`freshness != "" && freshness != "noLimit" && ... && freshness != "oneYear"`. -/
def freshnessRejected (f : Str) : Bool :=
  f != str "" && f != str "noLimit" && f != str "day" &&
    f != str "week" && f != str "month" && f != str "oneYear"

/-- The provider's HTTP response as seen after the body has been read:
status code plus the body, already modelled as a JSON value. -/
structure HttpResponse where
  status : Nat
  body : Json

/-- Oracle for the one network exchange a `Search` call performs: either the
`httpClient.Do` call fails, reading the body fails, or a response arrives. -/
inductive HttpOutcome where
  | sendError (e : Str)
  | readError (e : Str)
  | ok (resp : HttpResponse)

/-- Observable outcome of one `Search` call: the returned value or error,
whether a rate-limiter token was consumed, and the request transmitted to
the provider (`none` when no HTTP request was issued). -/
structure ServiceOutcome where
  result : Except SearchError WebSearchResponse
  tokenConsumed : Bool
  request : Option WebSearchRequest

/-- The provider-error message extraction of `service.go` lines 207-213:
decode `{error: string}` from the body and keep it only when decoding
succeeded and the message is non-empty. -/
def providerMsg (body : Json) : Option Str :=
  match unmarshalErrorResp body with
  | some e => if e = [] then none else some e
  | none => none

/-- `BochaService.Search` of `service.go`, as a function of its inputs and
of two oracles: `limiter` (`none` when a token was acquired, `some ctxErr`
when the context ended while waiting) and `http` (the network exchange).
The `json.Marshal` and `http.NewRequestWithContext` steps, which cannot fail
for this fixed method and marshallable struct, are elided.  Checks happen in
source order: limiter, empty query, query truncation, freshness, count
clamp, request build, send, read, status, decode, empty-result check. -/
def searchService (limiter : Option Str) (query freshness : Str) (count : Int)
    (summary : Bool) (http : HttpOutcome) : ServiceOutcome :=
  match limiter with
  | some ctxErr => ⟨.error (.rateLimited ctxErr), false, none⟩
  | none =>
    if query = [] then ⟨.error .emptyQuery, true, none⟩
    else
      let query := sanitizeQuery query
      if freshnessRejected freshness then
        ⟨.error (.invalidFreshness freshness), true, none⟩
      else
        let count := clampCount count
        let req : WebSearchRequest := ⟨query, freshness, count, summary⟩
        match http with
        | .sendError e => ⟨.error (.sendFailed e), true, some req⟩
        | .readError e => ⟨.error (.readFailed e), true, some req⟩
        | .ok resp =>
          if resp.status ≠ 200 then
            ⟨.error (.providerError resp.status (providerMsg resp.body)), true, some req⟩
          else
            match unmarshalWebSearchResponse resp.body with
            | none => ⟨.error .decodeError, true, some req⟩
            | some r =>
              if r.data.webPages.value.isNone then
                ⟨.error .emptyResponse, true, some req⟩
              else
                ⟨.ok r, true, some req⟩

/-! ## Pure formatting helpers of `mcp/tools.go` -/

/-- `formatFreshness` of `tools.go`: human-readable freshness label. -/
def formatFreshness (freshness : Str) : Str :=
  if freshness == str "day" then str "Past 24 hours"
  else if freshness == str "week" then str "Past week"
  else if freshness == str "month" then str "Past month"
  else if freshness == str "oneYear" then str "Past year"
  else str "No time limit"

/-- The date value `time.Parse` produces, restricted to the fields that
`Format("January 2, 2006")` reads. -/
structure GoDate where
  year : Nat
  month : Nat
  day : Nat

/-- Numeric value of a decimal digit character. -/
def digitVal (c : Char) : Nat := c.toNat - '0'.toNat

/-- Parse exactly four decimal digits (layout chunk `2006`). -/
def parseYear4 : Str → Option (Nat × Str)
  | a :: b :: c :: d :: rest =>
    if a.isDigit && b.isDigit && c.isDigit && d.isDigit then
      some (digitVal a * 1000 + digitVal b * 100 + digitVal c * 10 + digitVal d, rest)
    else none
  | _ => none

/-- Parse exactly two decimal digits (layout chunks `01`, `02`, `04`, `05`:
Go `getnum` with `fixed = true`). -/
def parseNum2 : Str → Option (Nat × Str)
  | a :: b :: rest =>
    if a.isDigit && b.isDigit then some (digitVal a * 10 + digitVal b, rest)
    else none
  | _ => none

/-- Parse one or two decimal digits (layout chunk `15`: Go `getnum` with
`fixed = false`). -/
def parseNum12 : Str → Option (Nat × Str)
  | [] => none
  | [a] => if a.isDigit then some (digitVal a, []) else none
  | a :: b :: rest =>
    if a.isDigit then
      if b.isDigit then some (digitVal a * 10 + digitVal b, rest)
      else some (digitVal a, b :: rest)
    else none

/-- Consume one expected literal character of the layout. -/
def expectChar (c : Char) : Str → Option Str
  | x :: rest => if x = c then some rest else none
  | [] => none

/-- Days in a month, as Go `time.daysIn` (with Gregorian leap years). -/
def daysIn (month year : Nat) : Nat :=
  if month = 2 then
    if year % 4 = 0 && (year % 100 ≠ 0 || year % 400 = 0) then 29 else 28
  else if month = 4 || month = 6 || month = 9 || month = 11 then 30
  else 31

/-- Parse the common date part `2006-01-02`, including Go's range checks on
the month (1-12) and the day (1 to days-in-month). -/
def parseDatePart (s : Str) : Option (GoDate × Str) := do
  let (y, s) ← parseYear4 s
  let s ← expectChar '-' s
  let (mo, s) ← parseNum2 s
  let s ← expectChar '-' s
  let (d, s) ← parseNum2 s
  if 1 ≤ mo ∧ mo ≤ 12 ∧ 1 ≤ d ∧ d ≤ daysIn mo y then some (⟨y, mo, d⟩, s)
  else none

/-- Parse the time part `15:04:05` with Go's range checks, followed by the
fractional seconds Go accepts after the seconds chunk even when the layout
has none (`.` or `,` followed by at least one digit). -/
def parseTimePart (s : Str) : Option Str := do
  let (h, s) ← parseNum12 s
  if h ≥ 24 then none
  else do
    let s ← expectChar ':' s
    let (mi, s) ← parseNum2 s
    if mi ≥ 60 then none
    else do
      let s ← expectChar ':' s
      let (se, s) ← parseNum2 s
      if se ≥ 60 then none
      else
        match s with
        | c :: d :: rest =>
          if (c = '.' ∨ c = ',') ∧ d.isDigit then
            some ((d :: rest).dropWhile Char.isDigit)
          else some (c :: d :: rest)
        | _ => some s

/-- Parse the zone chunk `Z07:00` of the RFC 3339 layout: a literal `Z`, or
a sign followed by `hh:mm` in digits. -/
def parseZone : Str → Option Str
  | 'Z' :: rest => some rest
  | sign :: h1 :: h2 :: ':' :: m1 :: m2 :: rest =>
    if (sign = '+' ∨ sign = '-') ∧ h1.isDigit ∧ h2.isDigit ∧ m1.isDigit ∧ m2.isDigit
    then some rest
    else none
  | _ => none

/-- `time.Parse(time.RFC3339, s)`, restricted to the date it yields. -/
def parseLayoutRFC3339 (s : Str) : Option GoDate := do
  let (d, s) ← parseDatePart s
  let s ← expectChar 'T' s
  let s ← parseTimePart s
  let s ← parseZone s
  if s = [] then some d else none

/-- `time.Parse("2006-01-02T15:04:05Z", s)`: here the trailing `Z` of the
layout is a literal character, not a zone marker. -/
def parseLayoutZ (s : Str) : Option GoDate := do
  let (d, s) ← parseDatePart s
  let s ← expectChar 'T' s
  let s ← parseTimePart s
  let s ← expectChar 'Z' s
  if s = [] then some d else none

/-- `time.Parse("2006-01-02", s)`. -/
def parseLayoutDateOnly (s : Str) : Option GoDate := do
  let (d, s) ← parseDatePart s
  if s = [] then some d else none

/-- The layout loop of `formatDate`: try RFC 3339, then
`"2006-01-02T15:04:05Z"`, then `"2006-01-02"`, first success wins. -/
def parseDateAny (s : Str) : Option GoDate :=
  (parseLayoutRFC3339 s).orElse fun _ =>
    (parseLayoutZ s).orElse fun _ => parseLayoutDateOnly s

/-- English month name, as Go `time.Month.String` for months 1-12 (the
fallback for out-of-range months, which the parser never produces, follows
Go's `%!Month(...)` shape). -/
def monthName (m : Nat) : Str :=
  if m = 1 then str "January"
  else if m = 2 then str "February"
  else if m = 3 then str "March"
  else if m = 4 then str "April"
  else if m = 5 then str "May"
  else if m = 6 then str "June"
  else if m = 7 then str "July"
  else if m = 8 then str "August"
  else if m = 9 then str "September"
  else if m = 10 then str "October"
  else if m = 11 then str "November"
  else if m = 12 then str "December"
  else str "%!Month(" ++ natToStr m ++ str ")"

/-- Four-digit zero-padded year, as Go `Format` renders layout chunk
`2006` for the 4-digit years the parsers produce. -/
def pad4 (n : Nat) : Str :=
  let s := natToStr n
  List.replicate (4 - s.length) '0' ++ s

/-- `t.Format("January 2, 2006")`: long month name, unpadded day, comma,
four-digit year. -/
def formatLongDate (d : GoDate) : Str :=
  monthName d.month ++ (' ' :: natToStr d.day) ++ (',' :: ' ' :: pad4 d.year)

/-- `formatDate` of `tools.go`: reformat the date when one of the three
layouts parses it, else return it unchanged. -/
def formatDate (dateStr : Str) : Str :=
  match parseDateAny dateStr with
  | some d => formatLongDate d
  | none => dateStr

/-! ## `sanitizeErrorMessage` of `mcp/tools.go` -/

/-- The boundary characters of `sanitizeErrorMessage`:
space, tab, newline, carriage return, quote, comma, semicolon, colon,
closing parenthesis. -/
def boundaryChars : Str := str " \t\n\r\",;:)"

/-- The bearer-token separator `"Bearer "`. -/
def bearerSep : Str := str "Bearer "

/-- The bearer-token pass of `sanitizeErrorMessage` (lines 561-575): split
on `"Bearer "`, replace the token at the front of the second part up to the
next boundary character (or all of it), and rejoin. -/
def sanitizeBearer (errMsg : Str) : Str :=
  if containsSub errMsg bearerSep then
    match splitOnStr bearerSep errMsg with
    | p0 :: p1 :: rest =>
      let p1 :=
        match indexAnyIn p1 boundaryChars with
        | some tokenEnd => str "[REDACTED]" ++ p1.drop tokenEnd
        | none => str "[REDACTED]"
      joinStr bearerSep (p0 :: p1 :: rest)
    | _ => errMsg
  else errMsg

/-- One iteration of the URL pass of `sanitizeErrorMessage` (lines 580-592):
find the first occurrence of `pre` (`http://` or `https://`), extend to the
next boundary character, and replace the span when it extends past the
scheme. -/
def redactFirstUrl (pre : Str) (errMsg : Str) : Str :=
  match indexOfSub pre errMsg with
  | none => errMsg
  | some idx =>
    let start := idx
    let endPos := start + pre.length + runLenNotIn boundaryChars (errMsg.drop (start + pre.length))
    if endPos > start + pre.length then
      errMsg.take start ++ str "[URL REDACTED]" ++ errMsg.drop endPos
    else errMsg

/-- `sanitizeErrorMessage` of `tools.go`: redact the token after the first
`"Bearer "` marker, then, if the text mentions `http`, redact the first
`http://` span and then the first `https://` span. -/
def sanitizeErrorMessage (errMsg : Str) : Str :=
  let errMsg := sanitizeBearer errMsg
  if containsSub errMsg (str "http") then
    redactFirstUrl (str "https://") (redactFirstUrl (str "http://") errMsg)
  else errMsg

/-! ## The tool handler of `mcp/tools.go` -/

/-- One value of the untyped MCP argument map
(`map[string]interface{}`): a string, a JSON number (Go `float64`, modelled
at integer precision), a boolean, or a value of any other dynamic type. -/
inductive ArgValue where
  | str (s : Str)
  | num (n : Int)
  | bool (b : Bool)
  | other

/-- The untyped argument map of a tool invocation. -/
abbrev Args := List (Str × ArgValue)

/-- Map lookup on the argument map (keys are unique in a Go map; first
match). -/
def lookupArg (args : Args) (k : Str) : Option ArgValue :=
  match args.find? (fun kv => kv.1 == k) with
  | some kv => some kv.2
  | none => none

/-- The Go type assertion `args[k].(string)`: succeeds exactly when the key
is present with a string value. -/
def getStringArg (args : Args) (k : Str) : Option Str :=
  match lookupArg args k with
  | some (.str s) => some s
  | _ => none

/-- The error text for a missing or non-string or empty `query`. -/
def queryRequiredMsg : Str := str "query parameter is required and must be a string"

/-- The error text for an over-long `query`. -/
def queryTooLongMsg : Str := str "query is too long (maximum 1000 characters)"

/-- The handler's invalid-freshness error text (`%q` modelled as plain
quoting). -/
def invalidFreshnessArgMsg (f : Str) : Str :=
  str "invalid freshness value: \"" ++ f ++
    str "\", must be one of: noLimit, day, week, month, oneYear"

/-- The freshness block of the handler (`tools.go` lines 424-431): default
`"noLimit"`, a present non-empty string must be one of the five enumerated
values or the invocation is rejected with an error message. -/
def parseFreshness (args : Args) : Except Str Str :=
  match getStringArg args (str "freshness") with
  | some f =>
    if f ≠ [] then
      if f != str "noLimit" && f != str "day" && f != str "week" &&
          f != str "month" && f != str "oneYear" then
        .error (invalidFreshnessArgMsg f)
      else .ok f
    else .ok (str "noLimit")
  | none => .ok (str "noLimit")

/-- The count block of the handler (`tools.go` lines 433-442): default 10,
a numeric argument is truncated to int and clamped into `[1,50]`, any other
value is ignored. -/
def parseCount (args : Args) : Int :=
  match lookupArg args (str "count") with
  | some (.num n) => clampCount n
  | _ => 10

/-- The summary block of the handler (`tools.go` lines 444-447): default
false, a boolean argument is taken as-is. -/
def parseSummary (args : Args) : Bool :=
  match lookupArg args (str "summary") with
  | some (.bool b) => b
  | _ => false

/-- `mcp.CallToolResult`, restricted to what the handler produces: one text
content block and the error flag. -/
structure CallToolResult where
  text : Str
  isError : Bool

/-- `mcp.NewToolResultError`. -/
def NewToolResultError (m : Str) : CallToolResult := ⟨m, true⟩

/-- `mcp.NewToolResultText`. -/
def NewToolResultText (t : Str) : CallToolResult := ⟨t, false⟩

/-- Render rows `render i x` for successive `i`, starting at `i = start`
(the `for i, result := range` loops print `i+1`). -/
def renderRows {α : Type} (render : Nat → α → Str) (start : Nat) : List α → Str
  | [] => []
  | x :: xs => render start x ++ renderRows render (start + 1) xs

/-- One numbered web result of the result text (`tools.go` lines 481-502). -/
def renderWebResult (i : Nat) (result : WebPageResult) : Str :=
  natToStr i ++ str ". " ++ result.name ++ str "\n" ++
  str "   URL: " ++ result.url ++ str "\n" ++
  (if result.siteIcon ≠ [] then str "   Favicon: " ++ result.siteIcon ++ str "\n" else []) ++
  (if result.siteName ≠ [] then str "   Site: " ++ result.siteName ++ str "\n" else []) ++
  (if result.snippet ≠ [] then str "   Description: " ++ result.snippet ++ str "\n" else []) ++
  (if result.dateLastCrawled ≠ [] then
    str "   Date: " ++ formatDate result.dateLastCrawled ++ str "\n" else []) ++
  str "\n"

/-- One numbered image result of the result text (`tools.go` lines 509-516). -/
def renderImageResult (i : Nat) (image : ImageResult) : Str :=
  natToStr i ++ str ". Image\n" ++
  str "   URL: " ++ image.contentUrl ++ str "\n" ++
  str "   Thumbnail: " ++ image.thumbnailUrl ++ str "\n" ++
  str "   Host Page: " ++ image.hostPageUrl ++ str "\n" ++
  str "   Dimensions: " ++ intToStr image.width ++ str "x" ++ intToStr image.height ++ str "\n" ++
  str "\n"

/-- The success-path result text of the handler (`tools.go` lines 462-519):
query echo, freshness label, result count, the "Search URL" block the code
emits when the summary flag is set, the numbered web results and the
optional image section. -/
def renderResults (query freshness : Str) (summary : Bool)
    (response : WebSearchResponse) : Str :=
  str "Search Query: \"" ++ query ++ str "\"\n" ++
  str "Freshness: " ++ formatFreshness freshness ++ str "\n" ++
  str "Results: " ++ natToStr (response.data.webPages.value.getD []).length ++ str "\n\n" ++
  (if summary ∧ response.data.webPages.webSearchUrl ≠ [] then
    str "Search URL:\n" ++ response.data.webPages.webSearchUrl ++ str "\n\n"
  else []) ++
  str "Search Results:\n" ++
  str "==============\n\n" ++
  renderRows renderWebResult 1 (response.data.webPages.value.getD []) ++
  (match response.data.images.value with
   | some imgs =>
     if imgs.length > 0 then
       str "Image Results:\n" ++ str "==============\n\n" ++
       renderRows renderImageResult 1 imgs
     else []
   | none => [])

/-- The handler closure of `tools.go` lines 406-521, as a function of the
argument map, of the search service (the `search.Service` interface,
abstracted as a function oracle), and of whether the 30-second context had
expired when a service error is examined.  The pair's second component is
the handler's Go `error` return value. -/
def handler (args : Args)
    (svc : Str → Str → Int → Bool → Except SearchError WebSearchResponse)
    (ctxTimedOut : Bool) : CallToolResult × Option Str :=
  match getStringArg args (str "query") with
  | none => (NewToolResultError queryRequiredMsg, none)
  | some query =>
    if query = [] then (NewToolResultError queryRequiredMsg, none)
    else if query.length > 1000 then (NewToolResultError queryTooLongMsg, none)
    else
      match parseFreshness args with
      | .error m => (NewToolResultError m, none)
      | .ok freshness =>
        let count := parseCount args
        let summary := parseSummary args
        match svc query freshness count summary with
        | .error e =>
          if ctxTimedOut then
            (NewToolResultError (str "Search timed out after 30 seconds"), none)
          else
            (NewToolResultError
              (str "Search failed: " ++ sanitizeErrorMessage e.message), none)
        | .ok response =>
          (NewToolResultText (renderResults query freshness summary response), none)

/-! ## Helper lemmas -/

/-- `clampCount` always lands in `[1, 50]`. -/
theorem clampCount_mem (c : Int) : 1 ≤ clampCount c ∧ clampCount c ≤ 50 := by
  unfold clampCount
  split_ifs <;> omega

/-- Whatever request `searchService` transmits carries the clamped count. -/
theorem searchService_request_count (limiter : Option Str) (q f : Str) (c : Int)
    (su : Bool) (http : HttpOutcome) (req : WebSearchRequest)
    (h : (searchService limiter q f c su http).request = some req) :
    req.count = clampCount c := by
  unfold searchService at h
  cases limiter with
  | some ctxErr => simp at h
  | none =>
    by_cases hq : q = [] <;> simp [hq] at h
    by_cases hf : freshnessRejected f <;> simp [hf] at h
    cases http with
    | sendError e => simp at h; subst h; rfl
    | readError e => simp at h; subst h; rfl
    | ok resp =>
      by_cases hs : resp.status = 200
      case neg => simp [hs] at h; subst h; rfl
      case pos =>
        simp [hs] at h
        cases hr : unmarshalWebSearchResponse resp.body with
        | none => simp [hr] at h; subst h; rfl
        | some r =>
          simp [hr] at h
          by_cases hv : r.data.webPages.value.isNone <;> simp [hv] at h <;>
            subst h <;> rfl

/-- A non-empty freshness value outside the enumerated five is rejected. -/
theorem freshnessRejected_of_invalid (f : Str) (h1 : f ≠ [])
    (h2 : f ∉ [str "noLimit", str "day", str "week", str "month", str "oneYear"]) :
    freshnessRejected f = true := by
  simp only [List.mem_cons, List.mem_singleton, not_or] at h2
  obtain ⟨a, b, c, d, e⟩ := h2
  have h0 : f ≠ str "" := by simpa [str] using h1
  simp [freshnessRejected, bne_iff_ne, h0, a, b, c, d, e]

/-! ## Claim theorems -/

/-- C5: a `Search` call with an empty query fails with the empty-query
InvalidArgument error and issues no HTTP request, yet has consumed one
rate-limiter token, because token acquisition precedes the emptiness check;
when instead the context ends during the limiter wait, the call fails with
RateLimited and no token is consumed — so acquisition really comes first. -/
theorem search_empty_query_consumes_token (f : Str) (c : Int) (su : Bool)
    (http : HttpOutcome) (ctxErr : Str) :
    searchService none [] f c su http =
      ⟨.error .emptyQuery, true, none⟩ ∧
    searchService (some ctxErr) [] f c su http =
      ⟨.error (.rateLimited ctxErr), false, none⟩ :=
  ⟨rfl, rfl⟩

/-- C6: a query longer than 1000 characters is not rejected for length: the
request transmitted to the provider carries exactly the first 1000
characters of the query, a prefix of it. -/
theorem search_long_query_truncated (q f : Str) (c : Int) (su : Bool)
    (http : HttpOutcome) (hq : q.length > 1000)
    (hf : freshnessRejected f = false) :
    (searchService none q f c su http).request =
      some ⟨q.take 1000, f, clampCount c, su⟩ ∧
    (q.take 1000).length = 1000 ∧ ∃ t, q = q.take 1000 ++ t := by
  have hq0 : q ≠ [] := by
    intro h
    rw [h] at hq
    simp at hq
  refine ⟨?_, ?_, ⟨q.drop 1000, (List.take_append_drop 1000 q).symm⟩⟩
  · cases http with
    | sendError e => simp [searchService, hq0, hf, sanitizeQuery, hq]
    | readError e => simp [searchService, hq0, hf, sanitizeQuery, hq]
    | ok resp =>
      simp only [searchService, hq0, hf, sanitizeQuery, hq]
      simp [hq0, hf]
      split
      · split
        · rfl
        · split <;> rfl
      · rfl
  · rw [List.length_take]
    omega

/-- C6 witness at a 1001-character query. -/
theorem search_long_query_truncated_witness :
    (searchService none (List.replicate 1001 'a') (str "noLimit") 10 false
        (.sendError [])).request =
      some ⟨(List.replicate 1001 'a').take 1000, str "noLimit", clampCount 10, false⟩ ∧
    ((List.replicate 1001 'a').take 1000).length = 1000 ∧
    ∃ t, List.replicate 1001 'a' = (List.replicate 1001 'a').take 1000 ++ t :=
  search_long_query_truncated _ _ _ _ _
    (by rw [List.length_replicate]; omega) (by decide)

/-- C9: the count clamp forces every count into `[1, 50]` (with the three
spec sample points); the handler ignores a non-numeric or absent `count`
argument (the default 10 applies) and clamps every numeric argument; and
every request the Search Client transmits carries a clamped count. -/
theorem count_clamped :
    (∀ c : Int, 1 ≤ clampCount c ∧ clampCount c ≤ 50) ∧
    clampCount 0 = 1 ∧ clampCount 51 = 50 ∧ clampCount 10 = 10 ∧
    (∀ args n, lookupArg args (str "count") = some (.num n) →
      parseCount args = clampCount n) ∧
    (∀ args v, lookupArg args (str "count") = some v → (∀ n, v ≠ .num n) →
      parseCount args = 10) ∧
    (∀ args, lookupArg args (str "count") = none → parseCount args = 10) ∧
    (∀ limiter q f c su http req,
      (searchService limiter q f c su http).request = some req →
      1 ≤ req.count ∧ req.count ≤ 50) := by
  refine ⟨clampCount_mem, rfl, rfl, rfl, ?_, ?_, ?_, ?_⟩
  · intro args n h
    simp [parseCount, h]
  · intro args v h hv
    cases v with
    | num n => exact absurd rfl (hv n)
    | str s => simp [parseCount, h]
    | bool b => simp [parseCount, h]
    | other => simp [parseCount, h]
  · intro args h
    simp [parseCount, h]
  · intro limiter q f c su http req h
    rw [searchService_request_count limiter q f c su http req h]
    exact clampCount_mem c

/-- C9 witness at the spec's sample points and at concrete argument maps. -/
theorem count_clamped_witness :
    (1 ≤ clampCount 7 ∧ clampCount 7 ≤ 50) ∧
    parseCount [(str "count", ArgValue.num 51)] = clampCount 51 ∧
    parseCount [(str "count", ArgValue.str (str "ten"))] = 10 ∧
    parseCount [] = 10 ∧
    (1 ≤ (⟨str "q", [], clampCount 99, false⟩ : WebSearchRequest).count ∧
      (⟨str "q", [], clampCount 99, false⟩ : WebSearchRequest).count ≤ 50) :=
  ⟨count_clamped.1 7,
   count_clamped.2.2.2.2.1 _ 51 rfl,
   count_clamped.2.2.2.2.2.1 _ (.str (str "ten")) rfl
     (fun _ h => ArgValue.noConfusion h),
   count_clamped.2.2.2.2.2.2.1 [] rfl,
   count_clamped.2.2.2.2.2.2.2 none (str "q") [] 99 false (.sendError []) _ rfl⟩

/-- C7: a non-empty freshness value outside
{noLimit, day, week, month, oneYear} makes the Search Client fail with the
InvalidArgument freshness error before any HTTP request is issued, and makes
the handler return the error-flagged result before the search service is
ever consulted (the outcome is the same for every service). -/
theorem invalid_freshness_rejected_before_http (q f : Str) (c : Int)
    (su : Bool) (http : HttpOutcome) (args : Args) (t : Bool)
    (hq : q ≠ []) (hf1 : f ≠ [])
    (hf2 : f ∉ [str "noLimit", str "day", str "week", str "month", str "oneYear"]) :
    ((searchService none q f c su http).result = .error (.invalidFreshness f) ∧
      (searchService none q f c su http).request = none) ∧
    (getStringArg args (str "query") = some q → q.length ≤ 1000 →
      getStringArg args (str "freshness") = some f →
      ∀ svc, handler args svc t =
        (NewToolResultError (invalidFreshnessArgMsg f), none)) := by
  have hrej := freshnessRejected_of_invalid f hf1 hf2
  constructor
  · constructor <;> simp [searchService, hq, hrej]
  · intro hargq hlen hargf svc
    have hnotlong : ¬ q.length > 1000 := by omega
    have hfr : parseFreshness args = .error (invalidFreshnessArgMsg f) := by
      have : (f != str "noLimit" && f != str "day" && f != str "week" &&
          f != str "month" && f != str "oneYear") = true := by
        simp only [List.mem_cons, List.mem_singleton, not_or] at hf2
        obtain ⟨a, b, c2, d, e⟩ := hf2
        simp [bne_iff_ne, a, b, c2, d, e]
      simp [parseFreshness, hargf, hf1, this]
    simp [handler, hargq, hq, hnotlong, hfr]

/-- C7 witness at the invalid freshness value `"year"`. -/
theorem invalid_freshness_rejected_before_http_witness :
    (searchService none (str "ai") (str "year") 5 false
        (.sendError [])).request = none ∧
    handler [(str "query", .str (str "ai")), (str "freshness", .str (str "year"))]
        (fun _ _ _ _ => .error .emptyResponse) false =
      (NewToolResultError (invalidFreshnessArgMsg (str "year")), none) := by
  have h := invalid_freshness_rejected_before_http (str "ai") (str "year") 5
    false (.sendError [])
    [(str "query", .str (str "ai")), (str "freshness", .str (str "year"))]
    false (by decide) (by decide) (by decide)
  exact ⟨h.1.2, h.2 rfl (by decide) rfl _⟩

/-- C2: every response with a non-2xx status makes `Search` fail with a
ProviderError carrying the status code and, exactly when the body decodes
as `{error: string}` with a non-empty message, that message; the error
depends on the body only through that decoded field, so the raw body is
never surfaced. -/
theorem search_non2xx_provider_error (q f : Str) (c : Int) (su : Bool)
    (status : Nat) (body : Json)
    (hq : q ≠ []) (hf : freshnessRejected f = false)
    (hs : status < 200 ∨ 299 < status) :
    (searchService none q f c su (.ok ⟨status, body⟩)).result =
      .error (.providerError status (providerMsg body)) ∧
    (∀ e, unmarshalErrorResp body = some e → e ≠ [] →
      providerMsg body = some e) ∧
    (unmarshalErrorResp body = none → providerMsg body = none) ∧
    (unmarshalErrorResp body = some [] → providerMsg body = none) ∧
    (∀ other : Json, unmarshalErrorResp other = unmarshalErrorResp body →
      (searchService none q f c su (.ok ⟨status, other⟩)).result =
        (searchService none q f c su (.ok ⟨status, body⟩)).result) := by
  have hne : ¬ status = 200 := by omega
  refine ⟨by simp [searchService, hq, hf, hne], ?_, ?_, ?_, ?_⟩
  · intro e he hne2
    simp [providerMsg, he, hne2]
  · intro he
    simp [providerMsg, he]
  · intro he
    simp [providerMsg, he]
  · intro other hother
    simp [searchService, hq, hf, hne, providerMsg, hother]

/-- C2 witness at the spec scenario: HTTP 500 with body
`{"error":"boom"}`. -/
theorem search_non2xx_provider_error_witness :
    (searchService none (str "x") [] 10 false
        (.ok ⟨500, Json.obj [(str "error", Json.str (str "boom"))]⟩)).result =
      .error (.providerError 500
        (providerMsg (Json.obj [(str "error", Json.str (str "boom"))]))) ∧
    providerMsg (Json.obj [(str "error", Json.str (str "boom"))]) =
      some (str "boom") := by
  have h := search_non2xx_provider_error (str "x") [] 10 false 500
    (Json.obj [(str "error", Json.str (str "boom"))])
    (by decide) (by decide) (by omega)
  exact ⟨h.1, h.2.1 (str "boom") rfl (by decide)⟩

/-- A status-200-shaped body whose `data.webPages.value` is a present but
empty list. -/
def bodyEmptyList : Json :=
  Json.obj [(str "code", Json.num 200),
    (str "data", Json.obj [(str "webPages",
      Json.obj [(str "value", Json.arr [])])])]

/-- The response `bodyEmptyList` decodes to. -/
def respEmptyList : WebSearchResponse :=
  { WebSearchResponse.zero with
    code := 200
    data := { Data.zero with
      webPages := { WebPages.zero with value := some [] } } }

/-- C3 counterexample: an HTTP 201 response — a 2xx status — whose body
decodes as valid JSON with a present-but-empty results collection does not
make `Search` succeed: the code tests `status != 200`, so the call fails
with a ProviderError. -/
theorem search_status_201_fails :
    (unmarshalWebSearchResponse bodyEmptyList).map
        (fun r => r.data.webPages.value) = some (some []) ∧
    (searchService none (str "x") [] 10 false
        (.ok ⟨201, bodyEmptyList⟩)).result =
      .error (.providerError 201 none) :=
  ⟨rfl, rfl⟩

/-- C3 amended: for a status-200 response whose body decodes into the
response struct, a structurally absent (nil) results collection fails with
EmptyResponse, while a present-but-empty collection succeeds and returns
the decoded response with zero results. -/
theorem search_status200_empty_results (q f : Str) (c : Int) (su : Bool)
    (body : Json) (r : WebSearchResponse)
    (hq : q ≠ []) (hf : freshnessRejected f = false)
    (hr : unmarshalWebSearchResponse body = some r) :
    (r.data.webPages.value = none →
      (searchService none q f c su (.ok ⟨200, body⟩)).result =
        .error .emptyResponse) ∧
    (r.data.webPages.value = some [] →
      (searchService none q f c su (.ok ⟨200, body⟩)).result = .ok r) := by
  constructor
  · intro hv
    simp [searchService, hq, hf, hr, hv]
  · intro hv
    simp [searchService, hq, hf, hr, hv]

/-- C3 amended witness: at `bodyEmptyList` the call succeeds with zero
results, and at a body whose `webPages` object lacks `value` the call fails
with EmptyResponse. -/
theorem search_status200_empty_results_witness :
    (searchService none (str "x") [] 10 false
        (.ok ⟨200, bodyEmptyList⟩)).result = .ok respEmptyList ∧
    (searchService none (str "x") [] 10 false
        (.ok ⟨200, Json.obj [(str "data",
          Json.obj [(str "webPages", Json.obj [])])]⟩)).result =
      .error .emptyResponse := by
  constructor
  · exact (search_status200_empty_results (str "x") [] 10 false bodyEmptyList
      respEmptyList (by decide) (by decide) rfl).2 rfl
  · exact (search_status200_empty_results (str "x") [] 10 false
      (Json.obj [(str "data", Json.obj [(str "webPages", Json.obj [])])])
      WebSearchResponse.zero (by decide) (by decide) rfl).1 rfl

/-- C4 counterexample: the Sanitizer does not replace *each* URL span — it
replaces only the first occurrence per scheme, so the second of two
`https://` URLs survives verbatim. -/
theorem sanitize_second_url_kept :
    containsSub
        (sanitizeErrorMessage
          (str "fetch https://a.example/p and https://b.example/q failed"))
        (str "https://b.example/q") = true ∧
    sanitizeErrorMessage
        (str "fetch https://a.example/p and https://b.example/q failed") =
      str "fetch [URL REDACTED] and https://b.example/q failed" := by
  constructor <;> rfl

/-- C4 amended: the Sanitizer replaces the bearer-token value after the
first `Bearer ` marker (up to the next boundary character, or to the end)
with `[REDACTED]`, and replaces the first `http://` span and the first
`https://` span (up to the next boundary character) with `[URL REDACTED]`,
preserving the surrounding text and leaving later URLs of the same scheme
intact; a string with neither marker is returned unchanged.  In particular
the two spec examples rewrite as claimed. -/
theorem sanitize_redacts_bearer_and_first_urls :
    sanitizeErrorMessage (str "Authorization: Bearer abc123xyz failed") =
      str "Authorization: Bearer [REDACTED] failed" ∧
    containsSub (sanitizeErrorMessage
        (str "Authorization: Bearer abc123xyz failed"))
      (str "abc123xyz") = false ∧
    sanitizeErrorMessage (str "connect to https://api.example.com/x failed") =
      str "connect to [URL REDACTED] failed" ∧
    containsSub (sanitizeErrorMessage
        (str "connect to https://api.example.com/x failed"))
      (str "api.example.com") = false ∧
    sanitizeErrorMessage (str "no token Bearer abc") =
      str "no token Bearer [REDACTED]" ∧
    (∀ s, containsSub s bearerSep = false → containsSub s (str "http") = false →
      sanitizeErrorMessage s = s) := by
  refine ⟨rfl, rfl, rfl, rfl, rfl, ?_⟩
  intro s h1 h2
  have hb : sanitizeBearer s = s := by simp [sanitizeBearer, h1]
  simp [sanitizeErrorMessage, hb, h2]

/-- C4 amended witness: a message with neither marker passes through
unchanged. -/
theorem sanitize_redacts_bearer_and_first_urls_witness :
    sanitizeErrorMessage (str "plain failure") = str "plain failure" :=
  sanitize_redacts_bearer_and_first_urls.2.2.2.2.2 (str "plain failure")
    (by rfl) (by rfl)

/-- The provider response of the spec's summary scenario: one result named
`Result A`, with a non-empty `webSearchUrl` (the decoded response struct has
no summary field at all). -/
def respSummaryScenario : WebSearchResponse :=
  { WebSearchResponse.zero with
    data := { Data.zero with
      webPages := { webSearchUrl := str "https://example.test/ws"
                    totalEstimatedMatches := 1
                    value := some [{ WebPageResult.zero with
                                     name := str "Result A"
                                     url := str "https://e.t/a" }]
                    someResultsRemoved := false } } }

/-- The argument map of the spec's summary scenario. -/
def argsSummaryScenario : Args :=
  [(str "query", .str (str "ai news")), (str "freshness", .str (str "day")),
   (str "count", .num 5), (str "summary", .bool true)]

/-- C1, evaluated at the failing input: with the summary flag set and a
successful provider response, the handler's rendered text carries the
result-count line `Results: 1`, but in place of a provider summary it
prints the response's `webSearchUrl` under a `Search URL:` label — the
decoded `WebSearchResponse` has no summary field the renderer could print,
although the request asked the provider for one. -/
theorem handler_summary_emits_search_url :
    (handler argsSummaryScenario (fun _ _ _ _ => .ok respSummaryScenario)
        false).2 = none ∧
    (handler argsSummaryScenario (fun _ _ _ _ => .ok respSummaryScenario)
        false).1.isError = false ∧
    (handler argsSummaryScenario (fun _ _ _ _ => .ok respSummaryScenario)
        false).1.text =
      str "Search Query: \"ai news\"\nFreshness: Past 24 hours\nResults: 1\n\nSearch URL:\nhttps://example.test/ws\n\nSearch Results:\n==============\n\n1. Result A\n   URL: https://e.t/a\n\n" :=
  ⟨rfl, rfl, rfl⟩

/-- C8: on every input the handler's Go error return value is nil, and the
returned `CallToolResult` is either error-flagged or the well-formed
rendering of a successful service response — no path propagates an
exception across the protocol boundary. -/
theorem handler_always_returns_result (args : Args)
    (svc : Str → Str → Int → Bool → Except SearchError WebSearchResponse)
    (t : Bool) :
    (handler args svc t).2 = none ∧
    ((handler args svc t).1.isError = true ∨
      ∃ q f r, getStringArg args (str "query") = some q ∧ q ≠ [] ∧
        q.length ≤ 1000 ∧ parseFreshness args = .ok f ∧
        svc q f (parseCount args) (parseSummary args) = .ok r ∧
        (handler args svc t).1 =
          NewToolResultText (renderResults q f (parseSummary args) r)) := by
  cases hq : getStringArg args (str "query") with
  | none => simp [handler, hq, NewToolResultError]
  | some q =>
    by_cases hq0 : q = []
    · simp [handler, hq, hq0, NewToolResultError]
    · by_cases hlen : q.length > 1000
      · simp [handler, hq, hq0, hlen, NewToolResultError]
      · cases hf : parseFreshness args with
        | error m => simp [handler, hq, hq0, hlen, hf, NewToolResultError]
        | ok f =>
          cases hs : svc q f (parseCount args) (parseSummary args) with
          | error e =>
            cases t <;> simp [handler, hq, hq0, hlen, hf, hs, NewToolResultError]
          | ok r =>
            refine ⟨by simp [handler, hq, hq0, hlen, hf, hs], .inr ?_⟩
            exact ⟨q, f, r, rfl, hq0, by omega, rfl, hs,
              by simp [handler, hq, hq0, hlen, hf, hs]⟩

/-- Test whether a string starts with a non-digit character. -/
def headNonDigit : Str → Bool
  | [] => false
  | c :: _ => !c.isDigit

/-- Every month name (and the out-of-range fallback) starts with a
non-digit character. -/
theorem monthName_headNonDigit (m : Nat) : headNonDigit (monthName m) = true :=
  match m with
  | 0 => rfl
  | 1 => rfl
  | 2 => rfl
  | 3 => rfl
  | 4 => rfl
  | 5 => rfl
  | 6 => rfl
  | 7 => rfl
  | 8 => rfl
  | 9 => rfl
  | 10 => rfl
  | 11 => rfl
  | 12 => rfl
  | _ + 13 => rfl

/-- Prepending to a string that starts with a non-digit keeps the head. -/
theorem headNonDigit_append (a b : Str) (h : headNonDigit a = true) :
    headNonDigit (a ++ b) = true := by
  cases a with
  | nil => simp [headNonDigit] at h
  | cons c t => simpa [headNonDigit] using h

/-- A formatted date starts with its month name, hence with a non-digit. -/
theorem formatLongDate_headNonDigit (d : GoDate) :
    headNonDigit (formatLongDate d) = true := by
  unfold formatLongDate
  exact headNonDigit_append _ _
    (headNonDigit_append _ _ (monthName_headNonDigit d.month))

/-- The four-digit year parser fails on a string whose first character is
not a digit. -/
theorem parseYear4_none_of_headNonDigit (s : Str)
    (h : headNonDigit s = true) : parseYear4 s = none := by
  rcases s with _ | ⟨a, _ | ⟨b, _ | ⟨c, _ | ⟨d, rest⟩⟩⟩⟩
  · simp [headNonDigit] at h
  · rfl
  · rfl
  · rfl
  · have ha : a.isDigit = false := by simpa [headNonDigit] using h
    simp [parseYear4, ha]

/-- None of the three layouts parses a string whose first character is not
a digit. -/
theorem parseDateAny_none_of_headNonDigit (s : Str)
    (h : headNonDigit s = true) : parseDateAny s = none := by
  have hy := parseYear4_none_of_headNonDigit s h
  simp [parseDateAny, parseLayoutRFC3339, parseLayoutZ, parseLayoutDateOnly,
    parseDatePart, hy, Option.orElse]

/-- C10: `formatDate` is total and idempotent — applying it twice yields
the same string as applying it once, and a date string parsed by none of
the three supported layouts is returned unchanged. -/
theorem formatDate_total_idempotent (s : Str) :
    formatDate (formatDate s) = formatDate s ∧
    (parseDateAny s = none → formatDate s = s) := by
  constructor
  · cases h : parseDateAny s with
    | none => simp [formatDate, h]
    | some d =>
      have h2 : parseDateAny (formatLongDate d) = none :=
        parseDateAny_none_of_headNonDigit _ (formatLongDate_headNonDigit d)
      simp [formatDate, h, h2]
  · intro h
    simp [formatDate, h]

/-- C10 witness at the unparseable date string `"invalid"`. -/
theorem formatDate_total_idempotent_witness :
    formatDate (formatDate (str "invalid")) = formatDate (str "invalid") ∧
    formatDate (str "invalid") = str "invalid" :=
  ⟨(formatDate_total_idempotent (str "invalid")).1,
   (formatDate_total_idempotent (str "invalid")).2 rfl⟩
